import Mathlib

/-!
# webserv: the connection engine (`src/server/Connection.cpp`)

A shallow embedding of `Connection` and of the contracts of its collaborators,
followed by theorems about the send cursor, the read path, builder selection,
builder resets, descriptor registration, `clear()` and the `CLOSE` state.

Conventions of the embedding

* `size_t` values are natural numbers; arithmetic on them is taken modulo
  `SIZE_MODULUS` (2^64).  `ssize_t` and `int` values are integers.
* A member function that can throw returns an `Outcome`: the state in which the
  object is left and the exception, if one was thrown.
* The calls to the outside that the properties below speak about (system calls,
  `parse` and the location hook of the parser, the manager, the selector, `build`
  and `close` of the builder) are appended to `State.trace` in program order;
  results of system calls are read from oracles of the environment, which may
  depend on everything that happened before.
* Types that `Connection.cpp` uses but that are declared outside the available
  sources (`RequestParser`, the concrete builders, `ServerManager`) are
  parameters: a type of states and the member functions as fields of `Env`.
-/

namespace Webserv

/-! ## Data model -/

/-- An octet of the byte stream (`octet_t`). -/
abbrev octet_t := Nat

/-- One more than the largest `size_t` value. -/
def SIZE_MODULUS : Nat := 18446744073709551616

/-- The `size_t` subtraction `a - b`, which wraps around below zero. -/
def sizeSub (a b : Nat) : Nat := (a + (SIZE_MODULUS - b % SIZE_MODULUS)) % SIZE_MODULUS

/-- The sum `a + d` of a `size_t` and an `ssize_t`, computed in `size_t`. -/
def sizeAddSigned (a : Nat) (d : Int) : Nat := (((a : Int) + d) % (SIZE_MODULUS : Int)).toNat

/-- Modelled from the spec: the enumerated HTTP method of a request (`EHttpMethod`,
declared in `utils/Enum.hpp`, which is not among the sources). -/
inductive EHttpMethod where
  | HTTP_GET
  | HTTP_POST
  | HTTP_DELETE
  | HTTP_NONE
  deriving DecidableEq, Repr

/-- Modelled from the spec: the phases reported by `RequestParser::getParsingStatus`
(`utils/Enum.hpp` is not among the sources): in progress in the request line, the
header or the body, header section complete, fully done. `Connection.cpp` names
`HEADER_FIELD_END` and `DONE`. -/
inductive EParsingStatus where
  | REQUEST_LINE
  | HEADER_FIELD
  | HEADER_FIELD_END
  | BODY
  | DONE
  deriving DecidableEq, Repr

/-- Modelled from the spec: `Location` (`config/Location.hpp` is not among the
sources), the configuration block matched by host and path, constraining the
allowed methods, the root directory and the body size. -/
structure Location where
  allowMethods : List EHttpMethod
  root : String
  clientMaxBodySize : Nat
  deriving DecidableEq, Repr

/-- Modelled from the spec: `Location::isAllowMethod`, whether the location
permits the method. -/
def Location.isAllowMethod (location : Location) (method : EHttpMethod) : Bool :=
  decide (method ∈ location.allowMethods)

/-- The data members of `Request` (`src/http/Request.hpp`). -/
structure Request where
  _method : EHttpMethod
  _path : String
  _query : String
  _httpVersion : String
  _header : List (String × List String)
  _body : String
  _locationFlag : Bool
  _location : Location
  _fullPath : String
  deriving DecidableEq, Repr

def Request.getMethod (request : Request) : EHttpMethod := request._method

def Request.getPath (request : Request) : String := request._path

def Request.getLocation (request : Request) : Location := request._location

/-- Modelled from the spec: `Response` (`Response.hpp` is not among the sources).
The status line, the headers and the body are kept in serialized form, the value
`toString()` returns; `_startIndex` is the number of serialized octets already
transmitted. -/
structure Response where
  serialized : List octet_t
  _startIndex : Nat
  deriving DecidableEq, Repr

def Response.toString (response : Response) : List octet_t := response.serialized

def Response.getStartIndex (response : Response) : Nat := response._startIndex

def Response.setStartIndex (response : Response) (startIndex : Nat) : Response :=
  { response with _startIndex := startIndex }

/-- The tag of a builder, `AResponseBuilder::EBuilderType`. -/
inductive EBuilderType where
  | ERROR
  deriving DecidableEq, Repr

/-- The data members of `AResponseBuilder` (`src/http/AResponseBuilder.hpp`);
`derived` is the state a concrete builder adds. -/
structure AResponseBuilder (β : Type) where
  _response : Response
  _isDone : Bool
  _request : Request
  _type : EBuilderType
  derived : β

def AResponseBuilder.getResponse {β : Type} (builder : AResponseBuilder β) : Response :=
  builder._response

def AResponseBuilder.isDone {β : Type} (builder : AResponseBuilder β) : Bool :=
  builder._isDone

/-- Modelled from the spec: `Event::EventType` (declared outside the sources), the
kind of readiness event handed to a builder; `NONE` is the neutral one. -/
inductive EventType where
  | NONE
  | READ
  | WRITE
  | TIMER
  deriving DecidableEq, Repr

/-- The states of a connection, `Connection::EStatus`. -/
inductive EStatus where
  | ON_WAIT
  | ON_RECV
  | TO_SEND
  | ON_BUILD
  | ON_SEND
  | CLOSE
  deriving DecidableEq, Repr

/-- Modelled from the spec: the status code `HTTP_NOT_ALLOWED` (a constant of
`utils`, outside the sources), 405. -/
def HTTP_NOT_ALLOWED : Int := 405

/-- What a member function can throw. `runtime_error` is the transport fault,
`StatusException` the protocol fault with its HTTP status code; `out_of_range` is
thrown by `std::string::substr`, and `null_dereference` stands for a call through
a `NULL` `_responseBuilder`. -/
inductive Fault where
  | runtime_error (what : String)
  | StatusException (code : Int) (what : String)
  | out_of_range
  | null_dereference
  deriving DecidableEq, Repr

/-- The state an operation leaves behind and the exception it threw, if any. -/
structure Outcome (σ : Type) where
  state : σ
  thrown : Option Fault

/-- Normal return. -/
def Outcome.ok {σ : Type} (s : σ) : Outcome σ := ⟨s, none⟩

/-- Exit by exception. -/
def Outcome.throw {σ : Type} (s : σ) (e : Fault) : Outcome σ := ⟨s, some e⟩

/-- Sequencing: the rest runs only if nothing was thrown. -/
def Outcome.andThen {σ : Type} (o : Outcome σ) (k : σ → Outcome σ) : Outcome σ :=
  match o.thrown with
  | some _ => o
  | none => k o.state

/-- A call that leaves the `Connection` object. -/
inductive Call where
  | time
  | read (fd : Int) (count : Nat)
  | write (fd : Int) (bytes : List octet_t)
  | parse (buffer : List octet_t) (bytesRead : Int)
  | getLocation (path host : String)
  | initRequestLocationAndFullPath (location : Location)
  | getMatchingBuilder (request : Request)
  | build (eventType : EventType)
  | builderClose
  | addManagedFd (fd owner : Int)
  | removeManagedFd (fd : Int)
  deriving DecidableEq, Repr

/-- Modelled from the spec: the filters of the readiness multiplexer. -/
inductive KFilter where
  | READ
  | WRITE
  | TIMER
  deriving DecidableEq, Repr

/-- Modelled from the spec: the state of `Kqueue` (`core/Kqueue.hpp` is not among
the sources), the events currently armed, each a descriptor and a filter. -/
abbrev Kqueue := List (Int × KFilter)

/-- Modelled from the spec: `Kqueue::removeAllEvents(fd)` disarms every event of
the descriptor. -/
def Kqueue.removeAllEvents (fd : Int) (kq : Kqueue) : Kqueue :=
  kq.filter (fun e => decide (e.1 ≠ fd))

/-- Modelled from the spec: `Kqueue::addWriteEvent(fd)` arms the write-ready event
of the descriptor. -/
def Kqueue.addWriteEvent (fd : Int) (kq : Kqueue) : Kqueue :=
  if (fd, KFilter.WRITE) ∈ kq then kq else (fd, KFilter.WRITE) :: kq

/-- The filters armed on a descriptor. -/
def Kqueue.armedOn (fd : Int) (kq : Kqueue) : List KFilter :=
  (kq.filter (fun e => decide (e.1 = fd))).map (fun e => e.2)

/-- The data members of `Connection`. The reference `_manager` is not a field:
what the manager is told is recorded in the trace. -/
structure Connection (P β : Type) where
  _fd : Int
  _lastCallTime : Int
  _status : EStatus
  _requestParser : P
  _responseBuilder : Option (AResponseBuilder β)
  _builderFds : List Int

/-- A connection together with the part of the world its operations act on. -/
structure State (P β : Type) where
  self : Connection P β
  kqueue : Kqueue
  trace : List Call

/-- Everything `Connection.cpp` takes from outside: the constant `BUFFER_SIZE`, the
system calls, and the member functions of the parser (states `P`), of the manager,
of the selector and of the builders (derived states `β`). -/
structure Env (P β : Type) where
  BUFFER_SIZE : Nat
  time : List Call → Int
  read : List Call → Int → Nat → Int × List octet_t
  write : List Call → Int → List octet_t → Int
  newRequestParser : P
  parse : P → List octet_t → Int → P × Option Fault
  getParsingStatus : P → EParsingStatus
  getRequest : P → Request
  initRequestLocationAndFullPath : P → Location → P
  isStorageBufferNotEmpty : P → Bool
  getHost : Request → String
  getLocation : String → String → Location
  getMatchingBuilder : Request → AResponseBuilder β
  newErrorBuilder : Request → Int → AResponseBuilder β
  newErrorBuilderDefault : AResponseBuilder β
  build : AResponseBuilder β → EventType → AResponseBuilder β × List Int
  close : AResponseBuilder β → AResponseBuilder β
  isConnectionClose : AResponseBuilder β → Bool

/-- Modelled from the spec: `RequestParser::clear` (the parser is not among the
sources) resets the parser to its initial phase, the state of a freshly
constructed parser. -/
def RequestParser.clear {P β : Type} (env : Env P β) (_current : P) : P :=
  env.newRequestParser

/-- The result of `std::string::substr(pos, count)`; `out_of_range` when `pos`
is past the end. -/
def substr (str : List octet_t) (pos : Nat) (count : Nat) : Option (List octet_t) :=
  if str.length < pos then none else some ((str.drop pos).take count)

/-- The result of `std::string::substr(pos)`, the whole tail from `pos`. -/
def substrFrom (str : List octet_t) (pos : Nat) : Option (List octet_t) :=
  if str.length < pos then none else some (str.drop pos)

section Operations

variable {P β : Type}

/-! ## Private methods -/

/-- Appends a call to the trace. -/
def State.record (s : State P β) (call : Call) : State P β :=
  { s with trace := s.trace ++ [call] }

/-- The member function `Connection::updateLastCallTime`. -/
def updateLastCallTime (env : Env P β) (s : State P β) : State P β :=
  { s with self := { s.self with _lastCallTime := env.time s.trace },
           trace := s.trace ++ [Call.time] }

/-- The member function `Connection::setStatus`. -/
def setStatus (status : EStatus) (s : State P β) : State P β :=
  { s with self := { s.self with _status := status } }

/-- The member function `Connection::setRequestParserLocation`. -/
def setRequestParserLocation (env : Env P β) (request : Request) (s : State P β) :
    State P β :=
  let path := request.getPath
  let host := env.getHost request
  let location := env.getLocation path host
  let s := s.record (Call.getLocation path host)
  let parser := env.initRequestLocationAndFullPath s.self._requestParser location
  { s with self := { s.self with _requestParser := parser },
           trace := s.trace ++ [Call.initRequestLocationAndFullPath location] }

/-- The member function `Connection::removeAllBuilderFd`. -/
def removeAllBuilderFd (s : State P β) : State P β :=
  if s.self._builderFds.length ≠ 0 then
    let s := s.self._builderFds.foldl (fun s fd => s.record (Call.removeManagedFd fd)) s
    { s with self := { s.self with _builderFds := [] } }
  else s

/-- The call `_requestParser.parse(buffer, bytesRead)`. -/
def parserParse (env : Env P β) (buffer : List octet_t) (bytesRead : Int) (s : State P β) :
    Outcome (State P β) :=
  let r := env.parse s.self._requestParser buffer bytesRead
  let s := { s with self := { s.self with _requestParser := r.1 },
                    trace := s.trace ++ [Call.parse buffer bytesRead] }
  match r.2 with
  | some e => Outcome.throw s e
  | none => Outcome.ok s

/-! ## Public methods: request -/

/-- The member function `Connection::parseRequest`. -/
def parseRequest (env : Env P β) (buffer : List octet_t) (bytesRead : Int) (s : State P β) :
    Outcome (State P β) :=
  (parserParse env buffer bytesRead s).andThen fun s =>
  (if env.getParsingStatus s.self._requestParser = EParsingStatus.HEADER_FIELD_END then
      let request := env.getRequest s.self._requestParser
      let s := setRequestParserLocation env request s
      parserParse env buffer 0 s
    else Outcome.ok s).andThen fun s =>
  if env.getParsingStatus s.self._requestParser = EParsingStatus.DONE then
    Outcome.ok (setStatus EStatus.TO_SEND s)
  else Outcome.ok s

/-- The member function `Connection::readSocket`. The buffer is zero-filled and
receives the octets the read delivers. -/
def readSocket (env : Env P β) (s : State P β) : Outcome (State P β) :=
  let s := if s.self._status = EStatus.ON_WAIT then setStatus EStatus.ON_RECV s else s
  let r := env.read s.trace s.self._fd env.BUFFER_SIZE
  let bytesRead := r.1
  let buffer := (r.2.take bytesRead.toNat ++ List.replicate env.BUFFER_SIZE 0).take env.BUFFER_SIZE
  let s := s.record (Call.read s.self._fd env.BUFFER_SIZE)
  if bytesRead < 0 then
    Outcome.throw s (Fault.runtime_error "[4000] Connection: readSocket - read fail")
  else if bytesRead = 0 then
    let s := setStatus EStatus.CLOSE s
    Outcome.ok (updateLastCallTime env s)
  else
    (parseRequest env buffer bytesRead s).andThen fun s =>
    Outcome.ok (updateLastCallTime env s)

/-- The member function `Connection::readStorage`. The one-octet buffer `tmp` is
never read, since zero octets are announced. -/
def readStorage (env : Env P β) (s : State P β) : Outcome (State P β) :=
  let s := if s.self._status = EStatus.ON_WAIT then setStatus EStatus.ON_RECV s else s
  let tmp : List octet_t := [0]
  (parseRequest env tmp 0 s).andThen fun s =>
  Outcome.ok (updateLastCallTime env s)

/-- The member function `Connection::isReadStorageRequired`. -/
def isReadStorageRequired (env : Env P β) (s : State P β) : Bool :=
  env.isStorageBufferNotEmpty s.self._requestParser

/-! ## Public methods: response -/

/-- The member function `Connection::selectResponseBuilder`. -/
def selectResponseBuilder (env : Env P β) (s : State P β) : Outcome (State P β) :=
  let s := updateLastCallTime env s
  let request := env.getRequest s.self._requestParser
  let location := request.getLocation
  if location.isAllowMethod request.getMethod = false then
    Outcome.throw s (Fault.StatusException HTTP_NOT_ALLOWED
      "[4005] Connection: selectResponseBuilder - method not allowed")
  else
    let builder := env.getMatchingBuilder request
    let s := { s with self := { s.self with _responseBuilder := some builder },
                      trace := s.trace ++ [Call.getMatchingBuilder request] }
    Outcome.ok (setStatus EStatus.ON_BUILD s)

/-- The member function `Connection::buildResponse`. -/
def buildResponse (env : Env P β) (eventType : EventType) (s : State P β) :
    Outcome (State P β) :=
  match s.self._responseBuilder with
  | none => Outcome.throw s Fault.null_dereference
  | some builder =>
    let r := env.build builder eventType
    let builderFds := r.2
    let s := { s with self := { s.self with _responseBuilder := some r.1 },
                      trace := s.trace ++ [Call.build eventType] }
    let s := updateLastCallTime env s
    let s :=
      if builderFds.length ≠ 0 then
        let s := builderFds.foldl (fun s fd => s.record (Call.addManagedFd fd s.self._fd)) s
        { s with self := { s.self with _builderFds := builderFds } }
      else s
    if r.1.isDone then
      let s := setStatus EStatus.ON_SEND s
      let s := { s with self := { s.self with _responseBuilder := some (env.close r.1) },
                        trace := s.trace ++ [Call.builderClose] }
      Outcome.ok (removeAllBuilderFd s)
    else Outcome.ok s

/-- The member function `Connection::sendResponse`. -/
def sendResponse (env : Env P β) (s : State P β) : Outcome (State P β) :=
  match s.self._responseBuilder with
  | none => Outcome.throw s Fault.null_dereference
  | some builder =>
    let response := builder.getResponse
    let responseContent := response.toString
    let startIndex := response.getStartIndex
    let contentLength := sizeSub responseContent.length startIndex
    let chunk : Option (List octet_t) × Bool :=
      if env.BUFFER_SIZE < contentLength then
        (substr responseContent startIndex env.BUFFER_SIZE, false)
      else
        (substrFrom responseContent startIndex, true)
    match chunk with
    | (none, _) => Outcome.throw s Fault.out_of_range
    | (some sendString, isDone) =>
      let bytesSent := env.write s.trace s.self._fd sendString
      let s := s.record (Call.write s.self._fd sendString)
      if bytesSent < 0 then
        Outcome.throw s (Fault.runtime_error
          "[4002] Connection: sendErrorPage - fail to write socket")
      else
        let response := response.setStartIndex (sizeAddSigned startIndex bytesSent)
        let s := { s with self := { s.self with
                     _responseBuilder := some { builder with _response := response } } }
        let s := updateLastCallTime env s
        if isDone then
          if env.isConnectionClose { builder with _response := response } then
            Outcome.ok (setStatus EStatus.CLOSE s)
          else
            Outcome.ok (setStatus EStatus.ON_WAIT s)
        else Outcome.ok s

/-- The member function `Connection::resetResponseBuilder(int code)`. -/
def resetResponseBuilder (env : Env P β) (code : Int) (s : State P β) :
    Outcome (State P β) :=
  let s := updateLastCallTime env s
  let s := { s with kqueue := Kqueue.removeAllEvents s.self._fd s.kqueue }
  let s := removeAllBuilderFd s
  let s := if s.self._responseBuilder.isSome then
             { s with self := { s.self with _responseBuilder := none } }
           else s
  let builder := env.newErrorBuilder (env.getRequest s.self._requestParser) code
  let s := { s with self := { s.self with _responseBuilder := some builder } }
  let s := setStatus EStatus.ON_BUILD s
  (buildResponse env EventType.NONE s).andThen fun s =>
  if s.self._status = EStatus.ON_SEND then
    Outcome.ok { s with kqueue := Kqueue.addWriteEvent s.self._fd s.kqueue }
  else Outcome.ok s

/-- The member function `Connection::resetResponseBuilder(void)`. -/
def resetResponseBuilder_void (env : Env P β) (s : State P β) : Outcome (State P β) :=
  let s := updateLastCallTime env s
  let s := { s with kqueue := Kqueue.removeAllEvents s.self._fd s.kqueue }
  let s := removeAllBuilderFd s
  let s := if s.self._responseBuilder.isSome then
             { s with self := { s.self with _responseBuilder := none } }
           else s
  let builder := env.newErrorBuilderDefault
  let s := { s with self := { s.self with _responseBuilder := some builder } }
  let s := setStatus EStatus.ON_BUILD s
  (buildResponse env EventType.NONE s).andThen fun s =>
  if s.self._status = EStatus.ON_SEND then
    Outcome.ok { s with kqueue := Kqueue.addWriteEvent s.self._fd s.kqueue }
  else Outcome.ok s

/-! ## Public methods: other -/

/-- The member function `Connection::clear`. -/
def clear (env : Env P β) (s : State P β) : State P β :=
  let parser := RequestParser.clear env s.self._requestParser
  let s := { s with self := { s.self with _requestParser := parser } }
  if s.self._responseBuilder.isSome then
    { s with self := { s.self with _responseBuilder := none } }
  else s

/-- The member function `Connection::getConnectionStatus`. -/
def getConnectionStatus (s : State P β) : EStatus := s.self._status

/-- The member function `Connection::isSameState`. -/
def isSameState (status : EStatus) (s : State P β) : Bool := decide (s.self._status = status)

/-- The send cursor of the response being transmitted, if there is a builder. -/
def sendCursor (s : State P β) : Option Nat :=
  s.self._responseBuilder.map fun builder => builder.getResponse.getStartIndex

/-- The serialized response being transmitted, if there is a builder. -/
def serializedResponse (s : State P β) : Option (List octet_t) :=
  s.self._responseBuilder.map fun builder => builder.getResponse.toString

end Operations

/-! ## Definitions for `sendResponse` -/

section SendDefs

variable {P β : Type}

/-- The chunk `sendResponse` offers to `write`: at most `BUFFER_SIZE` octets of the
unsent tail. -/
def offeredChunk (env : Env P β) (builder : AResponseBuilder β) : List octet_t :=
  (builder.getResponse.toString.drop builder.getResponse.getStartIndex).take env.BUFFER_SIZE

/-- The builder after `response.setStartIndex(startIndex + bytesSent)`. -/
def advanced (builder : AResponseBuilder β) (bytesSent : Int) : AResponseBuilder β :=
  let response :=
    builder.getResponse.setStartIndex (sizeAddSigned builder.getResponse.getStartIndex bytesSent)
  { builder with _response := response }

/-- The state after a `sendResponse` whose write returned `bytesSent`, before the
status is decided. -/
def afterWrite (env : Env P β) (s : State P β) (builder : AResponseBuilder β)
    (bytesSent : Int) : State P β :=
  let s1 := s.record (Call.write s.self._fd (offeredChunk env builder))
  updateLastCallTime env
    { s1 with self := { s1.self with _responseBuilder := some (advanced builder bytesSent) } }

end SendDefs

/-! ## Definitions for `parseRequest` -/

section ParseDefs

variable {P β : Type}

/-- The result of the first call of `parse` in `parseRequest(buffer, bytesRead)`. -/
def firstParse (env : Env P β) (s : State P β) (buffer : List octet_t) (bytesRead : Int) :
    P × Option Fault :=
  env.parse s.self._requestParser buffer bytesRead

/-- The location the manager resolves for the request of a parser, from its path
and its host. -/
def resolvedLocation (env : Env P β) (parser : P) : Location :=
  env.getLocation (env.getRequest parser).getPath (env.getHost (env.getRequest parser))

/-- The result of the second call of `parse`, with zero new octets, on the parser
into which the resolved location has been injected. -/
def secondParse (env : Env P β) (s : State P β) (buffer : List octet_t) (bytesRead : Int) :
    P × Option Fault :=
  env.parse
    (env.initRequestLocationAndFullPath (firstParse env s buffer bytesRead).1
      (resolvedLocation env (firstParse env s buffer bytesRead).1))
    buffer 0

end ParseDefs

/-! ## Definitions for `buildResponse` and `resetResponseBuilder` -/

section BuildDefs

variable {P β : Type}

/-- The calls `addManagedFd(fd, owner)` for the descriptors of a list, in order. -/
def registrations (owner : Int) (fds : List Int) : List Call :=
  fds.map fun fd => Call.addManagedFd fd owner

/-- The calls `removeManagedFd(fd)` for the descriptors of a list, in order. -/
def unregistrations (fds : List Int) : List Call :=
  fds.map fun fd => Call.removeManagedFd fd

/-- The state `buildResponse(eventType)` leaves when the connection holds
`builder`, in closed form. -/
def afterBuild (env : Env P β) (eventType : EventType) (s : State P β)
    (builder : AResponseBuilder β) : State P β :=
  let r := env.build builder eventType
  let recorded := if r.2.length ≠ 0 then r.2 else s.self._builderFds
  let trace := s.trace ++ [Call.build eventType, Call.time] ++ registrations s.self._fd r.2
  if r.1.isDone then
    { self := { s.self with _lastCallTime := env.time (s.trace ++ [Call.build eventType]),
                            _status := EStatus.ON_SEND,
                            _responseBuilder := some (env.close r.1),
                            _builderFds := [] },
      kqueue := s.kqueue,
      trace := trace ++ [Call.builderClose] ++ unregistrations recorded }
  else
    { self := { s.self with _lastCallTime := env.time (s.trace ++ [Call.build eventType]),
                            _responseBuilder := some r.1,
                            _builderFds := recorded },
      kqueue := s.kqueue,
      trace := trace }

/-- A sequence of `buildResponse` calls, one for each event, as the event loop
makes them; it ends at the first call that throws. -/
def buildResponses (env : Env P β) (eventTypes : List EventType) (s : State P β) :
    Outcome (State P β) :=
  eventTypes.foldl (fun o eventType => o.andThen (buildResponse env eventType)) (Outcome.ok s)

/-- The first build step of the error builder a reset constructs. -/
def firstBuild (env : Env P β) (builder : AResponseBuilder β) :
    AResponseBuilder β × List Int :=
  env.build builder EventType.NONE

/-- The calls a reset makes when it replaces the builder by `builder`, given the
descriptors recorded before: the clock, the unregistration of the recorded
descriptors, the first build step with the registration of what it returns and,
if the step is done, the close of the builder and the unregistration again. -/
def resetCalls (env : Env P β) (owner : Int) (recorded : List Int)
    (builder : AResponseBuilder β) : List Call :=
  [Call.time] ++ unregistrations recorded ++ [Call.build EventType.NONE, Call.time]
    ++ registrations owner (firstBuild env builder).2
    ++ (if (firstBuild env builder).1.isDone then
          [Call.builderClose] ++ unregistrations (firstBuild env builder).2
        else [])

/-- The state in which a reset runs the first build step of the replacement
`builder`: the clock is refreshed, the events of the descriptor are disarmed, the
recorded descriptors are unregistered, the builder is replaced and the status is
`ON_BUILD`. -/
def resetStart (env : Env P β) (s : State P β) (builder : AResponseBuilder β) : State P β :=
  { self := { s.self with _lastCallTime := env.time s.trace,
                          _status := EStatus.ON_BUILD,
                          _responseBuilder := some builder,
                          _builderFds := [] },
    kqueue := Kqueue.removeAllEvents s.self._fd s.kqueue,
    trace := s.trace ++ [Call.time] ++ unregistrations s.self._builderFds }

end BuildDefs

/-! ## A concrete environment

A small parser, a scripted builder and fixed system-call results, on which the
operations can be evaluated. -/

/-- A parser state: the phase, the octets buffered and the request built so far. -/
structure SampleParser where
  status : EParsingStatus
  storage : List octet_t
  request : Request
  deriving DecidableEq, Repr

def sampleLocation : Location :=
  { allowMethods := [EHttpMethod.HTTP_GET], root := "/var/www", clientMaxBodySize := 1024 }

def sampleRequest : Request :=
  { _method := EHttpMethod.HTTP_GET, _path := "/index.html", _query := "",
    _httpVersion := "HTTP/1.1", _header := [("Host", ["localhost"])], _body := "",
    _locationFlag := true, _location := sampleLocation, _fullPath := "/var/www/index.html" }

/-- The same request with a method the location does not permit. -/
def samplePostRequest : Request := { sampleRequest with _method := EHttpMethod.HTTP_POST }

/-- The sample parser buffers what it is fed; it leaves the request line once it
holds an octet, reports the end of the header section until the location is
known, and is done after that. An octet 255 is malformed input. -/
def SampleParser.parse (parser : SampleParser) (buffer : List octet_t) (bytesRead : Int) :
    SampleParser × Option Fault :=
  let parser := { parser with storage := parser.storage ++ buffer.take bytesRead.toNat }
  if 255 ∈ parser.storage then
    (parser, some (Fault.StatusException 400 "bad request"))
  else
    match parser.status with
    | EParsingStatus.REQUEST_LINE =>
      if parser.storage.length = 0 then (parser, none)
      else ({ parser with status := EParsingStatus.HEADER_FIELD_END }, none)
    | EParsingStatus.HEADER_FIELD_END =>
      if parser.request._locationFlag then
        ({ parser with status := EParsingStatus.DONE, storage := [] }, none)
      else (parser, none)
    | _ => (parser, none)

def SampleParser.initRequestLocationAndFullPath (parser : SampleParser) (location : Location) :
    SampleParser :=
  { parser with request := { parser.request with _locationFlag := true, _location := location } }

def sampleNewParser : SampleParser :=
  { status := EParsingStatus.REQUEST_LINE, storage := [],
    request := { sampleRequest with _locationFlag := false,
                                    _location := { allowMethods := [], root := "",
                                                   clientMaxBodySize := 0 } } }

/-- A parser that has parsed `request` completely. -/
def sampleDoneParser (request : Request) : SampleParser :=
  { status := EParsingStatus.DONE, storage := [], request := request }

/-- A scripted builder: each `build` returns the next list of descriptors of the
script, and the builder is done when the script is used up. -/
def sampleBuilder (script : List (List Int)) (serialized : List octet_t) :
    AResponseBuilder (List (List Int)) :=
  { _response := { serialized := serialized, _startIndex := 0 }, _isDone := false,
    _request := sampleRequest, _type := EBuilderType.ERROR, derived := script }

def sampleBuild (builder : AResponseBuilder (List (List Int))) (_eventType : EventType) :
    AResponseBuilder (List (List Int)) × List Int :=
  match builder.derived with
  | [] => ({ builder with _isDone := true }, [])
  | fds :: rest => ({ builder with derived := rest, _isDone := rest.isEmpty }, fds)

def sampleEnv : Env SampleParser (List (List Int)) :=
  { BUFFER_SIZE := 4
    time := fun trace => trace.length
    read := fun _ _ _ => (0, [])
    write := fun _ _ bytes => bytes.length
    newRequestParser := sampleNewParser
    parse := SampleParser.parse
    getParsingStatus := fun parser => parser.status
    getRequest := fun parser => parser.request
    initRequestLocationAndFullPath := SampleParser.initRequestLocationAndFullPath
    isStorageBufferNotEmpty := fun parser => !parser.storage.isEmpty
    getHost := fun _ => "localhost"
    getLocation := fun _ _ => sampleLocation
    getMatchingBuilder := fun _ => sampleBuilder [[]] [79, 75]
    newErrorBuilder := fun _ _ => sampleBuilder [] [69, 82, 82]
    newErrorBuilderDefault := sampleBuilder [] [69, 82, 82]
    build := sampleBuild
    close := fun builder => builder
    isConnectionClose := fun _ => false }

/-- A connection on descriptor 3 in the given status, with the given parser and
builder and no auxiliary descriptors. -/
def sampleState (status : EStatus) (parser : SampleParser)
    (builder : Option (AResponseBuilder (List (List Int)))) :
    State SampleParser (List (List Int)) :=
  { self := { _fd := 3, _lastCallTime := 0, _status := status, _requestParser := parser,
              _responseBuilder := builder, _builderFds := [] },
    kqueue := [(3, KFilter.READ)], trace := [] }

/-- A connection in `ON_SEND` whose two-octet response has not been sent yet. -/
def sendingState : State SampleParser (List (List Int)) :=
  sampleState EStatus.ON_SEND (sampleDoneParser sampleRequest) (some (sampleBuilder [] [79, 75]))

/-- The sample environment with another `BUFFER_SIZE` and a `write` that accepts
at most `written` octets of what it is offered. -/
def shortWriteEnv (bufferSize : Nat) (written : Int) : Env SampleParser (List (List Int)) :=
  { sampleEnv with BUFFER_SIZE := bufferSize,
                   write := fun _ _ bytes => min written (bytes.length : Int) }

/-- A connection in `ON_BUILD` on descriptor 3 that has the descriptor 9 of its
current builder on record and its read event armed. -/
def buildingState : State SampleParser (List (List Int)) :=
  { self := { _fd := 3, _lastCallTime := 0, _status := EStatus.ON_BUILD,
              _requestParser := sampleDoneParser sampleRequest,
              _responseBuilder := some (sampleBuilder [[], []] [79, 75]),
              _builderFds := [9] },
    kqueue := [(3, KFilter.READ), (9, KFilter.READ)], trace := [] }

/-- The sample environment with an error builder whose first build step opens the
descriptor 7 for the error page and is not done. -/
def errorPageEnv : Env SampleParser (List (List Int)) :=
  { sampleEnv with newErrorBuilder := fun _ _ => sampleBuilder [[7], []] [69, 82, 82],
                   newErrorBuilderDefault := sampleBuilder [[7], []] [69, 82, 82] }

/-- A connection in `ON_BUILD` whose builder returns the descriptor 5 at its first
build step and the descriptor 6 at its second, after which it is done. -/
def twoStepState : State SampleParser (List (List Int)) :=
  sampleState EStatus.ON_BUILD (sampleDoneParser sampleRequest)
    (some (sampleBuilder [[5], [6]] [79, 75]))

/-- A connection in `CLOSE` that still holds the parsed request and a builder. -/
def closedState : State SampleParser (List (List Int)) :=
  sampleState EStatus.CLOSE (sampleDoneParser sampleRequest) (some (sampleBuilder [] [79, 75]))

/-! ## Arithmetic of `size_t` -/

theorem sizeSub_of_le (a b : Nat) (hb : b ≤ a) (ha : a < SIZE_MODULUS) :
    sizeSub a b = a - b := by
  unfold sizeSub SIZE_MODULUS at *
  omega

theorem sizeAddSigned_of_nonneg (a : Nat) (d : Int) (hd : 0 ≤ d)
    (h : (a : Int) + d < (SIZE_MODULUS : Int)) :
    sizeAddSigned a d = a + d.toNat := by
  unfold sizeAddSigned SIZE_MODULUS at *
  omega

/-! ## `sendResponse` -/

section Send

variable {P β : Type}

/-- What `sendResponse` does when the cursor is within the response and the write
does not fail: the offered chunk is the last one exactly when the unsent tail
fits into `BUFFER_SIZE`, and in that case the status leaves `ON_SEND`. -/
theorem sendResponse_eq (env : Env P β) (s : State P β) (builder : AResponseBuilder β)
    (hb : s.self._responseBuilder = some builder)
    (hstart : builder.getResponse.getStartIndex ≤ builder.getResponse.toString.length)
    (hlen : builder.getResponse.toString.length < SIZE_MODULUS)
    (hw : 0 ≤ env.write s.trace s.self._fd (offeredChunk env builder)) :
    sendResponse env s =
      if builder.getResponse.toString.length - builder.getResponse.getStartIndex
          ≤ env.BUFFER_SIZE then
        if env.isConnectionClose
            (advanced builder (env.write s.trace s.self._fd (offeredChunk env builder))) then
          Outcome.ok (setStatus EStatus.CLOSE
            (afterWrite env s builder (env.write s.trace s.self._fd (offeredChunk env builder))))
        else
          Outcome.ok (setStatus EStatus.ON_WAIT
            (afterWrite env s builder (env.write s.trace s.self._fd (offeredChunk env builder))))
      else
        Outcome.ok
          (afterWrite env s builder (env.write s.trace s.self._fd (offeredChunk env builder))) := by
  have hsub := sizeSub_of_le _ _ hstart hlen
  have hnot : ¬ builder.getResponse.toString.length < builder.getResponse.getStartIndex := by
    omega
  unfold sendResponse
  rw [hb]
  simp only [hsub, substr, substrFrom, hnot, if_false]
  by_cases hlast : builder.getResponse.toString.length - builder.getResponse.getStartIndex
      ≤ env.BUFFER_SIZE
  · have htake : offeredChunk env builder
        = builder.getResponse.toString.drop builder.getResponse.getStartIndex := by
      unfold offeredChunk
      apply List.take_of_length_le
      simpa using hlast
    have hw2 : ¬ env.write s.trace s.self._fd
        (builder.getResponse.toString.drop builder.getResponse.getStartIndex) < 0 := by
      rw [← htake]; omega
    have hlt : ¬ env.BUFFER_SIZE
        < builder.getResponse.toString.length - builder.getResponse.getStartIndex := by omega
    simp only [hlt, if_false, hw2, hlast, if_true, afterWrite, advanced, htake, State.record]
  · have hlt : env.BUFFER_SIZE
        < builder.getResponse.toString.length - builder.getResponse.getStartIndex := by omega
    have hw2 : ¬ env.write s.trace s.self._fd
        ((builder.getResponse.toString.drop builder.getResponse.getStartIndex).take
          env.BUFFER_SIZE) < 0 := by
      have := hw
      unfold offeredChunk at this
      omega
    simp only [hlt, if_true, hw2, hlast, if_false, afterWrite, advanced, offeredChunk, State.record]
    rfl

/-- C2. Send-cursor bounds: when the cursor is within the serialized response
(whose length fits `size_t`) and `write` does not fail, `sendResponse` returns
normally, its only call of `write` offers `offeredChunk`, which has at most
`BUFFER_SIZE` octets and is the beginning of the unsent tail at `startIndex`; the
response is unchanged and the new cursor is `startIndex + bytesSent`, which is at
least the old cursor and at most the length of the serialized response. -/
theorem sendResponse_cursor_bounds (env : Env P β) (s : State P β)
    (builder : AResponseBuilder β)
    (hb : s.self._responseBuilder = some builder)
    (hstart : builder.getResponse.getStartIndex ≤ builder.getResponse.toString.length)
    (hlen : builder.getResponse.toString.length < SIZE_MODULUS)
    (hwrite : ∀ bytes : List octet_t, 0 ≤ env.write s.trace s.self._fd bytes ∧
      env.write s.trace s.self._fd bytes ≤ bytes.length) :
    (sendResponse env s).thrown = none ∧
    (sendResponse env s).state.trace
      = s.trace ++ [Call.write s.self._fd (offeredChunk env builder), Call.time] ∧
    (offeredChunk env builder).length ≤ env.BUFFER_SIZE ∧
    (∃ rest, builder.getResponse.toString.drop builder.getResponse.getStartIndex
      = offeredChunk env builder ++ rest) ∧
    serializedResponse (sendResponse env s).state = some builder.getResponse.toString ∧
    ∃ cursor : Nat, sendCursor (sendResponse env s).state = some cursor ∧
      (cursor : Int) = (builder.getResponse.getStartIndex : Int)
        + env.write s.trace s.self._fd (offeredChunk env builder) ∧
      builder.getResponse.getStartIndex ≤ cursor ∧
      cursor ≤ builder.getResponse.toString.length := by
  obtain ⟨hw0, hw1⟩ := hwrite (offeredChunk env builder)
  have hchunk : (offeredChunk env builder).length
      ≤ builder.getResponse.toString.length - builder.getResponse.getStartIndex := by
    unfold offeredChunk
    simp only [List.length_take, List.length_drop]
    omega
  have hadd := sizeAddSigned_of_nonneg builder.getResponse.getStartIndex _ hw0
    (by unfold SIZE_MODULUS at *; omega)
  have hstate : ∀ st : EStatus,
      (setStatus st (afterWrite env s builder
        (env.write s.trace s.self._fd (offeredChunk env builder)))).trace
        = s.trace ++ [Call.write s.self._fd (offeredChunk env builder), Call.time] := by
    intro st
    simp [setStatus, afterWrite, updateLastCallTime, State.record]
  have htrace : (afterWrite env s builder
        (env.write s.trace s.self._fd (offeredChunk env builder))).trace
        = s.trace ++ [Call.write s.self._fd (offeredChunk env builder), Call.time] := by
    simp [afterWrite, updateLastCallTime, State.record]
  rw [sendResponse_eq env s builder hb hstart hlen hw0]
  refine ⟨?_, ?_, ?_, ?_, ?_, ?_⟩
  · split_ifs <;> rfl
  · split_ifs
    · exact hstate _
    · exact hstate _
    · exact htrace
  · unfold offeredChunk
    simp only [List.length_take]
    omega
  · exact ⟨(builder.getResponse.toString.drop builder.getResponse.getStartIndex).drop
      env.BUFFER_SIZE, (List.take_append_drop _ _).symm⟩
  · split_ifs <;> rfl
  · refine ⟨builder.getResponse.getStartIndex
      + (env.write s.trace s.self._fd (offeredChunk env builder)).toNat, ?_, ?_, ?_, ?_⟩
    · split_ifs <;>
        simp [sendCursor, Outcome.ok, setStatus, afterWrite, updateLastCallTime, advanced,
          AResponseBuilder.getResponse, Response.getStartIndex, Response.setStartIndex,
          State.record] <;>
        simpa [AResponseBuilder.getResponse, Response.getStartIndex] using hadd
    · omega
    · omega
    · omega

/-- The bounds of C2 on a connection whose two-octet response is unsent, with
`BUFFER_SIZE = 4` and a `write` that accepts one octet. -/
theorem sendResponse_cursor_bounds_witness :
    sendingState.self._responseBuilder = some (sampleBuilder [] [79, 75]) ∧
    (sampleBuilder [] [79, 75]).getResponse.getStartIndex
      ≤ (sampleBuilder [] [79, 75]).getResponse.toString.length ∧
    (sampleBuilder [] [79, 75]).getResponse.toString.length < SIZE_MODULUS ∧
    (sendResponse (shortWriteEnv 4 1) sendingState).thrown = none ∧
    (sendResponse (shortWriteEnv 4 1) sendingState).state.trace
      = [Call.write 3 [79, 75], Call.time] ∧
    ∃ cursor : Nat,
      sendCursor (sendResponse (shortWriteEnv 4 1) sendingState).state = some cursor ∧
      (cursor : Int) = 0 + 1 ∧ 0 ≤ cursor ∧ cursor ≤ 2 :=
  have h := sendResponse_cursor_bounds (shortWriteEnv 4 1) sendingState
    (sampleBuilder [] [79, 75]) rfl (by decide) (by decide)
    (by intro bytes; simp [shortWriteEnv])
  ⟨rfl, by decide, by decide, h.1, h.2.1, h.2.2.2.2.2⟩

/-- C1. The code at the failing input: the whole response of two octets fits one
chunk (`BUFFER_SIZE = b + 2`), the cursor is 0 and `write` accepts one octet. The
call returns normally and leaves `ON_SEND` for `ON_WAIT`, although the cursor
after the call is 1 and the serialized response has 2 octets: the partial write
of the last chunk is treated as completion, and the equivalence of the claim
fails. -/
theorem sendResponse_short_write_of_last_chunk_completes (b : Nat) :
    sendingState.self._status = EStatus.ON_SEND ∧
    sendCursor sendingState = some 0 ∧
    (sendResponse (shortWriteEnv (b + 2) 1) sendingState).thrown = none ∧
    (sendResponse (shortWriteEnv (b + 2) 1) sendingState).state.trace
      = [Call.write 3 [79, 75], Call.time] ∧
    (sendResponse (shortWriteEnv (b + 2) 1) sendingState).state.self._status
      = EStatus.ON_WAIT ∧
    sendCursor (sendResponse (shortWriteEnv (b + 2) 1) sendingState).state = some 1 ∧
    serializedResponse (sendResponse (shortWriteEnv (b + 2) 1) sendingState).state
      = some [79, 75] ∧
    ¬ ((sendResponse (shortWriteEnv (b + 2) 1) sendingState).state.self._status
          ≠ EStatus.ON_SEND ↔
        sendCursor (sendResponse (shortWriteEnv (b + 2) 1) sendingState).state
          = (serializedResponse (sendResponse (shortWriteEnv (b + 2) 1) sendingState).state).map
              List.length) := by
  have h := sendResponse_eq (shortWriteEnv (b + 2) 1) sendingState
    (sampleBuilder [] [79, 75]) rfl (by decide) (by decide) (by simp [shortWriteEnv])
  have hfit : (sampleBuilder [] [79, 75]).getResponse.toString.length
      - (sampleBuilder [] [79, 75]).getResponse.getStartIndex
      ≤ (shortWriteEnv (b + 2) 1).BUFFER_SIZE := by
    show 2 - 0 ≤ b + 2
    omega
  have hclose : (shortWriteEnv (b + 2) 1).isConnectionClose
      (advanced (sampleBuilder [] [79, 75])
        ((shortWriteEnv (b + 2) 1).write sendingState.trace sendingState.self._fd
          (offeredChunk (shortWriteEnv (b + 2) 1) (sampleBuilder [] [79, 75])))) = false := rfl
  rw [if_pos hfit, hclose] at h
  simp only [Bool.false_eq_true, if_false] at h
  have hchunk : offeredChunk (shortWriteEnv (b + 2) 1) (sampleBuilder [] [79, 75])
      = [79, 75] := by
    show List.take (b + 2) [79, 75] = [79, 75]
    simp
  have hwritten : (shortWriteEnv (b + 2) 1).write sendingState.trace sendingState.self._fd
      [79, 75] = 1 := by simp [shortWriteEnv]
  have hcursor : sizeAddSigned 0 1 = 1 := by decide
  rw [h, hchunk, hwritten]
  have hchunk2 := hchunk
  simp only [sampleBuilder] at hchunk2
  simp [hchunk2, Outcome.ok, setStatus, afterWrite, updateLastCallTime, advanced, State.record,
    sendCursor, serializedResponse, hchunk, sendingState, sampleState, sampleBuilder,
    AResponseBuilder.getResponse, Response.getStartIndex, Response.setStartIndex,
    Response.toString, hcursor]

/-- The status after `sendResponse`: it is unchanged, or else the call returned
normally and set `CLOSE` for a builder that requests closure, `ON_WAIT` for one
that does not. -/
theorem sendResponse_status (env : Env P β) (s : State P β) :
    (sendResponse env s).state.self._status = s.self._status ∨
    ((sendResponse env s).thrown = none ∧
      ((sendResponse env s).state.self._status = EStatus.CLOSE ∧
          (sendResponse env s).state.self._responseBuilder.map env.isConnectionClose
            = some true ∨
        (sendResponse env s).state.self._status = EStatus.ON_WAIT ∧
          (sendResponse env s).state.self._responseBuilder.map env.isConnectionClose
            = some false)) := by
  unfold sendResponse
  cases hbuilder : s.self._responseBuilder with
  | none => left; rfl
  | some builder =>
    simp only
    split
    · left; rfl
    · rename_i sendString isDone heq
      by_cases hw : env.write s.trace s.self._fd sendString < 0
      · rw [if_pos hw]; left; rfl
      · rw [if_neg hw]
        cases isDone with
        | false => left; rfl
        | true =>
          right
          simp only [if_true]
          split
          · rename_i hc
            exact ⟨rfl, Or.inl ⟨rfl, by simpa [setStatus, updateLastCallTime, Outcome.ok] using hc⟩⟩
          · rename_i hc
            exact ⟨rfl, Or.inr ⟨rfl, by simpa [setStatus, updateLastCallTime, Outcome.ok] using hc⟩⟩

end Send

/-! ## `readSocket` -/

section Read

variable {P β : Type}

/-- C3. Zero-byte read closes unconditionally: whatever the status and the parser
state of the connection, a `readSocket` whose `read` returns 0 returns normally
with `status == CLOSE`; the parser is exactly as it was, and the only calls made
are the `read` and the clock: `parse` is not invoked. -/
theorem readSocket_zero_read_closes (env : Env P β) (s : State P β)
    (hread : (env.read s.trace s.self._fd env.BUFFER_SIZE).1 = 0) :
    (readSocket env s).thrown = none ∧
    (readSocket env s).state.self._status = EStatus.CLOSE ∧
    (readSocket env s).state.self._requestParser = s.self._requestParser ∧
    (readSocket env s).state.trace
      = s.trace ++ [Call.read s.self._fd env.BUFFER_SIZE, Call.time] := by
  unfold readSocket
  by_cases hwait : s.self._status = EStatus.ON_WAIT
  · simp [hwait, setStatus, hread, State.record, updateLastCallTime, Outcome.ok]
  · simp [hwait, setStatus, hread, State.record, updateLastCallTime, Outcome.ok]

/-- The zero-byte read of C3 in the middle of a header parse: the connection is in
`ON_RECV`, the sample parser holds buffered octets, and `read` returns 0. -/
theorem readSocket_zero_read_closes_witness :
    (sampleEnv.read [] 3 sampleEnv.BUFFER_SIZE).1 = 0 ∧
    (readSocket sampleEnv (sampleState EStatus.ON_RECV
        { sampleNewParser with storage := [71, 69, 84] } none)).thrown = none ∧
    (readSocket sampleEnv (sampleState EStatus.ON_RECV
        { sampleNewParser with storage := [71, 69, 84] } none)).state.self._status
      = EStatus.CLOSE ∧
    (readSocket sampleEnv (sampleState EStatus.ON_RECV
        { sampleNewParser with storage := [71, 69, 84] } none)).state.self._requestParser
      = { sampleNewParser with storage := [71, 69, 84] } :=
  have h := readSocket_zero_read_closes sampleEnv
    (sampleState EStatus.ON_RECV { sampleNewParser with storage := [71, 69, 84] } none) rfl
  ⟨rfl, h.1, h.2.1, h.2.2.1⟩

/-- C8. Two-phase parse. `parseRequest(buffer, n)` first calls `parse` with the
`n` octets. If that call throws, nothing else happens. If it returns and the parser
does not report `HEADER_FIELD_END`, no further call is made. If it returns and the
parser reports `HEADER_FIELD_END`, the location is resolved by the manager from
the path and the host of the request, injected into the parser, and `parse` is
called once more, with zero octets. On normal return the status is `TO_SEND` if
the last status the parser reports is `DONE`, and unchanged otherwise. -/
theorem parseRequest_two_phase (env : Env P β) (s : State P β) (buffer : List octet_t)
    (n : Int) :
    (∀ e, (firstParse env s buffer n).2 = some e →
      (parseRequest env buffer n s).thrown = some e ∧
      (parseRequest env buffer n s).state.trace = s.trace ++ [Call.parse buffer n] ∧
      (parseRequest env buffer n s).state.self._requestParser
        = (firstParse env s buffer n).1 ∧
      (parseRequest env buffer n s).state.self._status = s.self._status) ∧
    ((firstParse env s buffer n).2 = none →
      env.getParsingStatus (firstParse env s buffer n).1 ≠ EParsingStatus.HEADER_FIELD_END →
      (parseRequest env buffer n s).thrown = none ∧
      (parseRequest env buffer n s).state.trace = s.trace ++ [Call.parse buffer n] ∧
      (parseRequest env buffer n s).state.self._requestParser
        = (firstParse env s buffer n).1 ∧
      (parseRequest env buffer n s).state.self._status
        = if env.getParsingStatus (firstParse env s buffer n).1 = EParsingStatus.DONE
          then EStatus.TO_SEND else s.self._status) ∧
    ((firstParse env s buffer n).2 = none →
      env.getParsingStatus (firstParse env s buffer n).1 = EParsingStatus.HEADER_FIELD_END →
      (parseRequest env buffer n s).thrown = (secondParse env s buffer n).2 ∧
      (parseRequest env buffer n s).state.trace
        = s.trace ++ [Call.parse buffer n,
            Call.getLocation (env.getRequest (firstParse env s buffer n).1).getPath
              (env.getHost (env.getRequest (firstParse env s buffer n).1)),
            Call.initRequestLocationAndFullPath
              (resolvedLocation env (firstParse env s buffer n).1),
            Call.parse buffer 0] ∧
      (parseRequest env buffer n s).state.self._requestParser
        = (secondParse env s buffer n).1 ∧
      (parseRequest env buffer n s).state.self._status
        = if (secondParse env s buffer n).2 = none ∧
            env.getParsingStatus (secondParse env s buffer n).1 = EParsingStatus.DONE
          then EStatus.TO_SEND else s.self._status) := by
  unfold secondParse resolvedLocation firstParse
  refine ⟨?_, ?_, ?_⟩
  · intro e he
    simp [parseRequest, parserParse, he, Outcome.andThen, Outcome.throw]
  · intro hnone hphase
    by_cases hdone : env.getParsingStatus (env.parse s.self._requestParser buffer n).1
        = EParsingStatus.DONE
    · simp [parseRequest, parserParse, hnone, hphase, hdone, Outcome.andThen, Outcome.ok,
        setStatus]
    · simp [parseRequest, parserParse, hnone, hphase, hdone, Outcome.andThen, Outcome.ok]
  · intro hnone hphase
    cases hsecond : (env.parse
        (env.initRequestLocationAndFullPath (env.parse s.self._requestParser buffer n).1
          (env.getLocation (env.getRequest (env.parse s.self._requestParser buffer n).1).getPath
            (env.getHost (env.getRequest (env.parse s.self._requestParser buffer n).1))))
        buffer 0).2 with
    | some e =>
      simp [parseRequest, parserParse, hnone, hphase, hsecond, Outcome.andThen, Outcome.ok,
        Outcome.throw, setRequestParserLocation, State.record]
    | none =>
      by_cases hdone : env.getParsingStatus (env.parse
          (env.initRequestLocationAndFullPath (env.parse s.self._requestParser buffer n).1
            (env.getLocation
              (env.getRequest (env.parse s.self._requestParser buffer n).1).getPath
              (env.getHost (env.getRequest (env.parse s.self._requestParser buffer n).1))))
          buffer 0).1 = EParsingStatus.DONE
      · simp [parseRequest, parserParse, hnone, hphase, hsecond, hdone, Outcome.andThen,
          Outcome.ok, setStatus, setRequestParserLocation, State.record]
      · simp [parseRequest, parserParse, hnone, hphase, hsecond, hdone, Outcome.andThen,
          Outcome.ok, setRequestParserLocation, State.record]

/-- The two-phase parse of C8 on the sample parser: three octets end the header
section, the location is resolved and injected, and the second call of `parse`
completes the request, so that the status becomes `TO_SEND`. -/
theorem parseRequest_two_phase_witness :
    (firstParse sampleEnv (sampleState EStatus.ON_RECV sampleNewParser none)
      [71, 69, 84, 0] 3).2 = none ∧
    sampleEnv.getParsingStatus
      (firstParse sampleEnv (sampleState EStatus.ON_RECV sampleNewParser none)
        [71, 69, 84, 0] 3).1 = EParsingStatus.HEADER_FIELD_END ∧
    (parseRequest sampleEnv [71, 69, 84, 0] 3
      (sampleState EStatus.ON_RECV sampleNewParser none)).state.trace
      = [Call.parse [71, 69, 84, 0] 3, Call.getLocation "/index.html" "localhost",
          Call.initRequestLocationAndFullPath sampleLocation, Call.parse [71, 69, 84, 0] 0] ∧
    (parseRequest sampleEnv [71, 69, 84, 0] 3
      (sampleState EStatus.ON_RECV sampleNewParser none)).state.self._status
      = EStatus.TO_SEND :=
  have h := (parseRequest_two_phase sampleEnv
    (sampleState EStatus.ON_RECV sampleNewParser none) [71, 69, 84, 0] 3).2.2
    (by decide) (by decide)
  ⟨by decide, by decide, h.2.1, h.2.2.2⟩

/-- The status after `parseRequest`: `TO_SEND` if the call returned normally and
the parser reports `DONE`, unchanged otherwise. -/
theorem parseRequest_status (env : Env P β) (s : State P β) (buffer : List octet_t)
    (n : Int) :
    (parseRequest env buffer n s).state.self._status
      = if (parseRequest env buffer n s).thrown = none ∧
          env.getParsingStatus (parseRequest env buffer n s).state.self._requestParser
            = EParsingStatus.DONE
        then EStatus.TO_SEND else s.self._status := by
  cases hfirst : (env.parse s.self._requestParser buffer n).2 with
  | some e =>
    simp [parseRequest, parserParse, hfirst, Outcome.andThen, Outcome.throw]
  | none =>
    by_cases hphase : env.getParsingStatus (env.parse s.self._requestParser buffer n).1
        = EParsingStatus.HEADER_FIELD_END
    · cases hsecond : (env.parse
          (env.initRequestLocationAndFullPath (env.parse s.self._requestParser buffer n).1
            (env.getLocation
              (env.getRequest (env.parse s.self._requestParser buffer n).1).getPath
              (env.getHost (env.getRequest (env.parse s.self._requestParser buffer n).1))))
          buffer 0).2 with
      | some e =>
        simp [parseRequest, parserParse, hfirst, hphase, hsecond, Outcome.andThen, Outcome.ok,
          Outcome.throw, setRequestParserLocation, State.record]
      | none =>
        by_cases hdone : env.getParsingStatus (env.parse
            (env.initRequestLocationAndFullPath (env.parse s.self._requestParser buffer n).1
              (env.getLocation
                (env.getRequest (env.parse s.self._requestParser buffer n).1).getPath
                (env.getHost (env.getRequest (env.parse s.self._requestParser buffer n).1))))
            buffer 0).1 = EParsingStatus.DONE
        · simp [parseRequest, parserParse, hfirst, hphase, hsecond, hdone, Outcome.andThen,
            Outcome.ok, setStatus, setRequestParserLocation, State.record]
        · simp [parseRequest, parserParse, hfirst, hphase, hsecond, hdone, Outcome.andThen,
            Outcome.ok, setRequestParserLocation, State.record]
    · by_cases hdone : env.getParsingStatus (env.parse s.self._requestParser buffer n).1
          = EParsingStatus.DONE
      · simp [parseRequest, parserParse, hfirst, hphase, hdone, Outcome.andThen, Outcome.ok,
          setStatus]
      · simp [parseRequest, parserParse, hfirst, hphase, hdone, Outcome.andThen, Outcome.ok]

/-- Refreshing `lastCallTime` after an operation changes neither what was thrown,
nor the status, nor the parser. -/
theorem andThen_updateLastCallTime (env : Env P β) (o : Outcome (State P β)) :
    (o.andThen fun s => Outcome.ok (updateLastCallTime env s)).thrown = o.thrown ∧
    (o.andThen fun s => Outcome.ok (updateLastCallTime env s)).state.self._status
      = o.state.self._status ∧
    (o.andThen fun s => Outcome.ok (updateLastCallTime env s)).state.self._requestParser
      = o.state.self._requestParser := by
  obtain ⟨st, thrown⟩ := o
  cases thrown <;> simp [Outcome.andThen, Outcome.ok, updateLastCallTime]

end Read

/-! ## `selectResponseBuilder` -/

section Select

variable {P β : Type}

/-- C6. Builder exclusivity: when the location of the parsed request permits its
method, `selectResponseBuilder` returns normally; the connection then holds one
builder, the one `BuilderSelector::getMatchingBuilder` returned for that request
at the single call made to the selector, and `status == ON_BUILD`. -/
theorem selectResponseBuilder_selects (env : Env P β) (s : State P β)
    (hallow : (env.getRequest s.self._requestParser).getLocation.isAllowMethod
      (env.getRequest s.self._requestParser).getMethod = true) :
    (selectResponseBuilder env s).thrown = none ∧
    (selectResponseBuilder env s).state.self._responseBuilder
      = some (env.getMatchingBuilder (env.getRequest s.self._requestParser)) ∧
    (selectResponseBuilder env s).state.self._status = EStatus.ON_BUILD ∧
    (selectResponseBuilder env s).state.trace
      = s.trace ++ [Call.time, Call.getMatchingBuilder (env.getRequest s.self._requestParser)] := by
  unfold selectResponseBuilder
  simp [updateLastCallTime, hallow, setStatus, Outcome.ok]

/-- The selection of C6 for a parsed `GET` request whose location permits `GET`. -/
theorem selectResponseBuilder_selects_witness :
    sampleRequest.getLocation.isAllowMethod sampleRequest.getMethod = true ∧
    (selectResponseBuilder sampleEnv
      (sampleState EStatus.TO_SEND (sampleDoneParser sampleRequest) none)).thrown = none ∧
    (selectResponseBuilder sampleEnv
      (sampleState EStatus.TO_SEND (sampleDoneParser sampleRequest) none)).state.self._status
      = EStatus.ON_BUILD :=
  have h := selectResponseBuilder_selects sampleEnv
    (sampleState EStatus.TO_SEND (sampleDoneParser sampleRequest) none) (by decide)
  ⟨by decide, h.1, h.2.2.1⟩

/-- C7. `selectResponseBuilder` throws if and only if the location of the parsed
request does not permit its method. What it throws then is the protocol fault
`StatusException` with status `HTTP_NOT_ALLOWED`, which is 405, not the transport
fault; the status, the parser with its request, the builder and `builderFds` are
as before, and the selector has not been called: the clock is the only call. -/
theorem selectResponseBuilder_fails_iff (env : Env P β) (s : State P β) :
    ((selectResponseBuilder env s).thrown ≠ none ↔
      (env.getRequest s.self._requestParser).getLocation.isAllowMethod
        (env.getRequest s.self._requestParser).getMethod = false) ∧
    ((env.getRequest s.self._requestParser).getLocation.isAllowMethod
        (env.getRequest s.self._requestParser).getMethod = false →
      (selectResponseBuilder env s).thrown
        = some (Fault.StatusException 405
            "[4005] Connection: selectResponseBuilder - method not allowed") ∧
      HTTP_NOT_ALLOWED = 405 ∧
      (selectResponseBuilder env s).state.self._status = s.self._status ∧
      (selectResponseBuilder env s).state.self._requestParser = s.self._requestParser ∧
      env.getRequest (selectResponseBuilder env s).state.self._requestParser
        = env.getRequest s.self._requestParser ∧
      (selectResponseBuilder env s).state.self._responseBuilder = s.self._responseBuilder ∧
      (selectResponseBuilder env s).state.self._builderFds = s.self._builderFds ∧
      (selectResponseBuilder env s).state.trace = s.trace ++ [Call.time]) := by
  unfold selectResponseBuilder
  cases hallow : (env.getRequest s.self._requestParser).getLocation.isAllowMethod
      (env.getRequest s.self._requestParser).getMethod
  · simp [updateLastCallTime, hallow, Outcome.throw, HTTP_NOT_ALLOWED]
  · simp [updateLastCallTime, hallow, setStatus, Outcome.ok]

/-- The failure of C7 for a parsed `POST` request whose location permits `GET` only. -/
theorem selectResponseBuilder_fails_iff_witness :
    samplePostRequest.getLocation.isAllowMethod samplePostRequest.getMethod = false ∧
    (selectResponseBuilder sampleEnv
      (sampleState EStatus.TO_SEND (sampleDoneParser samplePostRequest) none)).thrown
      = some (Fault.StatusException 405
          "[4005] Connection: selectResponseBuilder - method not allowed") ∧
    (selectResponseBuilder sampleEnv
      (sampleState EStatus.TO_SEND (sampleDoneParser samplePostRequest) none)).state.self._status
      = EStatus.TO_SEND :=
  have h := (selectResponseBuilder_fails_iff sampleEnv
    (sampleState EStatus.TO_SEND (sampleDoneParser samplePostRequest) none)).2 (by decide)
  ⟨by decide, h.1, h.2.2.1⟩

end Select

/-! ## `buildResponse` and `resetResponseBuilder` -/

section Build

variable {P β : Type}

theorem foldl_addManagedFd (fds : List Int) (s : State P β) :
    fds.foldl (fun s fd => s.record (Call.addManagedFd fd s.self._fd)) s
      = { s with trace := s.trace ++ registrations s.self._fd fds } := by
  induction fds generalizing s with
  | nil => simp [registrations]
  | cons fd fds ih =>
    rw [List.foldl_cons, ih]
    simp [State.record, registrations]

theorem foldl_removeManagedFd (fds : List Int) (s : State P β) :
    fds.foldl (fun s fd => s.record (Call.removeManagedFd fd)) s
      = { s with trace := s.trace ++ unregistrations fds } := by
  induction fds generalizing s with
  | nil => simp [unregistrations]
  | cons fd fds ih =>
    rw [List.foldl_cons, ih]
    simp [State.record, unregistrations]

/-- The function `removeAllBuilderFd` unregisters every recorded descriptor and empties the
record. -/
theorem removeAllBuilderFd_eq (s : State P β) :
    removeAllBuilderFd s
      = { s with self := { s.self with _builderFds := [] },
                 trace := s.trace ++ unregistrations s.self._builderFds } := by
  unfold removeAllBuilderFd
  by_cases hfds : s.self._builderFds = []
  · obtain ⟨⟨fd, t, st, parser, builder, fds⟩, kq, trace⟩ := s
    simp only at hfds
    subst hfds
    simp [unregistrations]
  · have hlen : s.self._builderFds.length ≠ 0 := by
      simpa using hfds
    simp only [hlen, ne_eq, not_false_eq_true, if_true]
    rw [foldl_removeManagedFd]

/-- A `buildResponse` on a connection that holds a builder returns normally, in the
state `afterBuild`. -/
theorem buildResponse_eq (env : Env P β) (eventType : EventType) (s : State P β)
    (builder : AResponseBuilder β) (hb : s.self._responseBuilder = some builder) :
    buildResponse env eventType s = Outcome.ok (afterBuild env eventType s builder) := by
  unfold buildResponse afterBuild
  rw [hb]
  by_cases hfds : (env.build builder eventType).2 = []
  · cases hdone : (env.build builder eventType).1.isDone <;>
      simp [hfds, hdone, updateLastCallTime, setStatus, removeAllBuilderFd_eq, registrations]
  · have hlen : (env.build builder eventType).2.length ≠ 0 := by
      simpa using hfds
    cases hdone : (env.build builder eventType).1.isDone <;>
      simp [hfds, hdone, updateLastCallTime, setStatus, removeAllBuilderFd_eq,
        foldl_addManagedFd]

theorem armedOn_removeAllEvents (fd : Int) (kq : Kqueue) :
    Kqueue.armedOn fd (Kqueue.removeAllEvents fd kq) = [] := by
  simp [Kqueue.armedOn, Kqueue.removeAllEvents, List.filter_filter]

theorem armedOn_addWriteEvent_removeAllEvents (fd : Int) (kq : Kqueue) :
    Kqueue.armedOn fd (Kqueue.addWriteEvent fd (Kqueue.removeAllEvents fd kq))
      = [KFilter.WRITE] := by
  have hmem : (fd, KFilter.WRITE) ∉ Kqueue.removeAllEvents fd kq := by
    simp [Kqueue.removeAllEvents, List.mem_filter]
  have h := armedOn_removeAllEvents fd kq
  unfold Kqueue.addWriteEvent
  rw [if_neg hmem]
  unfold Kqueue.armedOn at *
  simp [List.filter_cons, h]

/-- The part the two overloads of `resetResponseBuilder` share: the first build
step of the fresh builder on a connection whose events have been disarmed and
whose descriptor record has been drained, followed by the arming of the write
event if the step completed the response. -/
theorem reset_tail (env : Env P β) (s : State P β) (kq : Kqueue)
    (builder : AResponseBuilder β)
    (hb : s.self._responseBuilder = some builder)
    (hstatus : s.self._status = EStatus.ON_BUILD)
    (hfds : s.self._builderFds = [])
    (hkq : s.kqueue = Kqueue.removeAllEvents s.self._fd kq)
    (out : Outcome (State P β))
    (hout : out = (buildResponse env EventType.NONE s).andThen fun s =>
      if s.self._status = EStatus.ON_SEND then
        Outcome.ok { s with kqueue := Kqueue.addWriteEvent s.self._fd s.kqueue }
      else Outcome.ok s) :
    out.thrown = none ∧
    out.state.self._fd = s.self._fd ∧
    out.state.self._status
      = (if (firstBuild env builder).1.isDone then EStatus.ON_SEND else EStatus.ON_BUILD) ∧
    out.state.self._builderFds
      = (if (firstBuild env builder).1.isDone then [] else (firstBuild env builder).2) ∧
    out.state.trace
      = s.trace ++ ([Call.build EventType.NONE, Call.time]
          ++ registrations s.self._fd (firstBuild env builder).2
          ++ (if (firstBuild env builder).1.isDone then
                [Call.builderClose] ++ unregistrations (firstBuild env builder).2
              else [])) ∧
    Kqueue.armedOn s.self._fd out.state.kqueue
      = (if out.state.self._status = EStatus.ON_SEND then [KFilter.WRITE] else []) := by
  subst hout
  rw [buildResponse_eq env EventType.NONE s builder hb]
  have harm := armedOn_addWriteEvent_removeAllEvents s.self._fd kq
  have hdis := armedOn_removeAllEvents s.self._fd kq
  rw [← hkq] at harm hdis
  unfold firstBuild
  by_cases hempty : (env.build builder EventType.NONE).2 = []
  · cases hdone : (env.build builder EventType.NONE).1.isDone <;>
      simp [afterBuild, Outcome.andThen, Outcome.ok, hdone, hstatus, hfds, hempty, harm, hdis,
        unregistrations, registrations]
  · cases hdone : (env.build builder EventType.NONE).1.isDone <;>
      simp [afterBuild, Outcome.andThen, Outcome.ok, hdone, hstatus, hfds, hempty, harm, hdis]

theorem resetResponseBuilder_eq (env : Env P β) (code : Int) (s : State P β) :
    resetResponseBuilder env code s
      = (buildResponse env EventType.NONE
          (resetStart env s (env.newErrorBuilder (env.getRequest s.self._requestParser) code))).andThen
        fun s =>
          if s.self._status = EStatus.ON_SEND then
            Outcome.ok { s with kqueue := Kqueue.addWriteEvent s.self._fd s.kqueue }
          else Outcome.ok s := by
  unfold resetResponseBuilder resetStart
  cases hbuilder : s.self._responseBuilder <;>
    simp [removeAllBuilderFd_eq, updateLastCallTime, setStatus, hbuilder]

theorem resetResponseBuilder_void_eq (env : Env P β) (s : State P β) :
    resetResponseBuilder_void env s
      = (buildResponse env EventType.NONE
          (resetStart env s env.newErrorBuilderDefault)).andThen
        fun s =>
          if s.self._status = EStatus.ON_SEND then
            Outcome.ok { s with kqueue := Kqueue.addWriteEvent s.self._fd s.kqueue }
          else Outcome.ok s := by
  unfold resetResponseBuilder_void resetStart
  cases hbuilder : s.self._responseBuilder <;>
    simp [removeAllBuilderFd_eq, updateLastCallTime, setStatus, hbuilder]

/-- C4, as amended. After either `resetResponseBuilder` returns, which it does
normally: the status is `ON_SEND` if the first build step of the fresh error
builder is done and `ON_BUILD` otherwise; `builderFds` is empty if that step is
done and is otherwise the list of descriptors the step returned; the calls made
are `resetCalls`, so the descriptors recorded before the reset have all been
unregistered and the ones the step returned have been registered for this
connection; and the only event armed on the descriptor of the connection is the
write event, which is armed iff `status == ON_SEND`. -/
theorem resetResponseBuilder_postcondition (env : Env P β) (code : Int) (s : State P β) :
    ((resetResponseBuilder env code s).thrown = none ∧
      (resetResponseBuilder env code s).state.self._status
        = (if (firstBuild env
              (env.newErrorBuilder (env.getRequest s.self._requestParser) code)).1.isDone
            then EStatus.ON_SEND else EStatus.ON_BUILD) ∧
      (resetResponseBuilder env code s).state.self._builderFds
        = (if (firstBuild env
              (env.newErrorBuilder (env.getRequest s.self._requestParser) code)).1.isDone
            then []
            else (firstBuild env
              (env.newErrorBuilder (env.getRequest s.self._requestParser) code)).2) ∧
      (resetResponseBuilder env code s).state.trace
        = s.trace ++ resetCalls env s.self._fd s.self._builderFds
            (env.newErrorBuilder (env.getRequest s.self._requestParser) code) ∧
      Kqueue.armedOn s.self._fd (resetResponseBuilder env code s).state.kqueue
        = (if (resetResponseBuilder env code s).state.self._status = EStatus.ON_SEND
            then [KFilter.WRITE] else [])) ∧
    ((resetResponseBuilder_void env s).thrown = none ∧
      (resetResponseBuilder_void env s).state.self._status
        = (if (firstBuild env env.newErrorBuilderDefault).1.isDone
            then EStatus.ON_SEND else EStatus.ON_BUILD) ∧
      (resetResponseBuilder_void env s).state.self._builderFds
        = (if (firstBuild env env.newErrorBuilderDefault).1.isDone
            then [] else (firstBuild env env.newErrorBuilderDefault).2) ∧
      (resetResponseBuilder_void env s).state.trace
        = s.trace ++ resetCalls env s.self._fd s.self._builderFds env.newErrorBuilderDefault ∧
      Kqueue.armedOn s.self._fd (resetResponseBuilder_void env s).state.kqueue
        = (if (resetResponseBuilder_void env s).state.self._status = EStatus.ON_SEND
            then [KFilter.WRITE] else [])) := by
  constructor
  · obtain ⟨h1, _, h3, h4, h5, h6⟩ := reset_tail env
      (resetStart env s (env.newErrorBuilder (env.getRequest s.self._requestParser) code))
      s.kqueue _ rfl rfl rfl rfl _ (resetResponseBuilder_eq env code s)
    refine ⟨h1, h3, h4, ?_, h6⟩
    rw [h5]
    simp [resetStart, resetCalls, List.append_assoc]
  · obtain ⟨h1, _, h3, h4, h5, h6⟩ := reset_tail env
      (resetStart env s env.newErrorBuilderDefault)
      s.kqueue _ rfl rfl rfl rfl _ (resetResponseBuilder_void_eq env s)
    refine ⟨h1, h3, h4, ?_, h6⟩
    rw [h5]
    simp [resetStart, resetCalls, List.append_assoc]

/-- C4, the claim as stated fails: in `errorPageEnv` the first build step of the
error builder is not done and returns the descriptor 7, and after
`resetResponseBuilder(404)` returns, `builderFds` is `[7]`, not empty. -/
theorem resetResponseBuilder_builderFds_not_empty :
    (resetResponseBuilder errorPageEnv 404 buildingState).thrown = none ∧
    (resetResponseBuilder errorPageEnv 404 buildingState).state.self._builderFds = [7] ∧
    (resetResponseBuilder errorPageEnv 404 buildingState).state.self._builderFds ≠ [] := by
  decide

/-- C5. The code at the failing input: two `buildResponse` calls on one builder,
starting with `builderFds` empty; the first build step returns the descriptor 5
and is not done, the second returns the descriptor 6 and is done. Both
descriptors are registered for the connection (descriptor 3), the status is
`ON_SEND`, the builder has been closed and `builderFds` is empty, but only 6 has
been unregistered: `removeManagedFd(5)` is never called, because the record of 5
was overwritten by the second list. -/
theorem buildResponse_overwritten_fd_stays_registered :
    twoStepState.self._builderFds = [] ∧
    (buildResponses sampleEnv [EventType.READ, EventType.READ] twoStepState).thrown = none ∧
    (buildResponses sampleEnv [EventType.READ, EventType.READ] twoStepState).state.self._status
      = EStatus.ON_SEND ∧
    (buildResponses sampleEnv [EventType.READ, EventType.READ]
      twoStepState).state.self._builderFds = [] ∧
    (buildResponses sampleEnv [EventType.READ, EventType.READ] twoStepState).state.trace
      = [Call.build EventType.READ, Call.time, Call.addManagedFd 5 3,
          Call.build EventType.READ, Call.time, Call.addManagedFd 6 3,
          Call.builderClose, Call.removeManagedFd 6] ∧
    Call.addManagedFd 5 3
      ∈ (buildResponses sampleEnv [EventType.READ, EventType.READ] twoStepState).state.trace ∧
    Call.removeManagedFd 5
      ∉ (buildResponses sampleEnv [EventType.READ, EventType.READ] twoStepState).state.trace := by
  decide

end Build

/-! ## `clear` -/

section Clear

variable {P β : Type}

/-- C9. Idempotent clear: a second `clear()` changes nothing. After one `clear()`
the parser is in its cleared initial state and no builder is held, while `fd`,
`status`, `lastCallTime` and `builderFds` are untouched; a second `clear()` yields
the same state as the first. -/
theorem clear_idempotent (env : Env P β) (s : State P β) :
    clear env (clear env s) = clear env s ∧
    (clear env s).self._requestParser = env.newRequestParser ∧
    (clear env s).self._responseBuilder = none ∧
    (clear env s).self._fd = s.self._fd ∧
    (clear env s).self._status = s.self._status ∧
    (clear env s).self._lastCallTime = s.self._lastCallTime ∧
    (clear env s).self._builderFds = s.self._builderFds := by
  unfold clear
  cases hbuilder : s.self._responseBuilder <;> simp [hbuilder, RequestParser.clear]

end Clear

/-! ## The status `CLOSE` -/

section Close

variable {P β : Type}

/-- C10, the claim as stated fails: on a connection with `status == CLOSE`,
`resetResponseBuilder(500)` returns with `ON_SEND`, `selectResponseBuilder()` with
`ON_BUILD`, and a `sendResponse()` that completes the response with `ON_WAIT`. -/
theorem close_not_terminal :
    closedState.self._status = EStatus.CLOSE ∧
    (resetResponseBuilder sampleEnv 500 closedState).state.self._status = EStatus.ON_SEND ∧
    (resetResponseBuilder sampleEnv 500 closedState).state.self._status ≠ EStatus.CLOSE ∧
    (selectResponseBuilder sampleEnv closedState).state.self._status = EStatus.ON_BUILD ∧
    (sendResponse sampleEnv closedState).state.self._status = EStatus.ON_WAIT := by
  decide

/-- C10, as amended. No operation tests for `CLOSE`; on a connection with
`status == CLOSE` the status stays `CLOSE` except where an operation reaches one
of its own status assignments. `clear()` keeps `CLOSE`. `parseRequest` and
`readStorage` keep `CLOSE` unless they return normally with the parser reporting
`DONE` (then `TO_SEND`), and so does `readSocket`, which also keeps `CLOSE` when
the read fails or returns 0. `selectResponseBuilder` keeps `CLOSE` exactly when it
throws (else `ON_BUILD`). `buildResponse` keeps `CLOSE` unless the connection
holds a builder that is done after the build step (then `ON_SEND`).
`sendResponse` keeps `CLOSE` unless it returns normally for a builder that does
not request closure (then `ON_WAIT`). Both `resetResponseBuilder` always leave
`ON_SEND` or `ON_BUILD`, never `CLOSE`. -/
theorem close_kept_unless_status_assigned (env : Env P β) (s : State P β)
    (hclose : s.self._status = EStatus.CLOSE) (buffer : List octet_t) (n : Int)
    (eventType : EventType) (code : Int) :
    (clear env s).self._status = EStatus.CLOSE ∧
    (parseRequest env buffer n s).state.self._status
      = (if (parseRequest env buffer n s).thrown = none ∧
            env.getParsingStatus (parseRequest env buffer n s).state.self._requestParser
              = EParsingStatus.DONE
          then EStatus.TO_SEND else EStatus.CLOSE) ∧
    (readStorage env s).state.self._status
      = (if (readStorage env s).thrown = none ∧
            env.getParsingStatus (readStorage env s).state.self._requestParser
              = EParsingStatus.DONE
          then EStatus.TO_SEND else EStatus.CLOSE) ∧
    (readSocket env s).state.self._status
      = (if 0 < (env.read s.trace s.self._fd env.BUFFER_SIZE).1 ∧
            (readSocket env s).thrown = none ∧
            env.getParsingStatus (readSocket env s).state.self._requestParser
              = EParsingStatus.DONE
          then EStatus.TO_SEND else EStatus.CLOSE) ∧
    (selectResponseBuilder env s).state.self._status
      = (if (selectResponseBuilder env s).thrown = none
          then EStatus.ON_BUILD else EStatus.CLOSE) ∧
    (buildResponse env eventType s).state.self._status
      = (if (s.self._responseBuilder.map fun builder =>
              (env.build builder eventType).1.isDone) = some true
          then EStatus.ON_SEND else EStatus.CLOSE) ∧
    ((sendResponse env s).state.self._status = EStatus.CLOSE ∨
      (sendResponse env s).state.self._status = EStatus.ON_WAIT ∧
        (sendResponse env s).thrown = none ∧
        (sendResponse env s).state.self._responseBuilder.map env.isConnectionClose
          = some false) ∧
    ((resetResponseBuilder env code s).state.self._status = EStatus.ON_SEND ∨
      (resetResponseBuilder env code s).state.self._status = EStatus.ON_BUILD) ∧
    ((resetResponseBuilder_void env s).state.self._status = EStatus.ON_SEND ∨
      (resetResponseBuilder_void env s).state.self._status = EStatus.ON_BUILD) := by
  have hwait : ¬ s.self._status = EStatus.ON_WAIT := by rw [hclose]; decide
  refine ⟨?_, ?_, ?_, ?_, ?_, ?_, ?_, ?_, ?_⟩
  · unfold clear
    cases hbuilder : s.self._responseBuilder <;> simp [hbuilder, hclose]
  · rw [parseRequest_status, hclose]
  · unfold readStorage
    simp only [hwait, if_false]
    obtain ⟨h1, h2, h3⟩ := andThen_updateLastCallTime env (parseRequest env [0] 0 s)
    rw [h1, h2, h3, parseRequest_status, hclose]
  · unfold readSocket
    simp only [hwait, if_false]
    by_cases hneg : (env.read s.trace s.self._fd env.BUFFER_SIZE).1 < 0
    · have hpos : ¬ 0 < (env.read s.trace s.self._fd env.BUFFER_SIZE).1 := by omega
      simp [hneg, hpos, Outcome.throw, State.record, hclose]
    · by_cases hzero : (env.read s.trace s.self._fd env.BUFFER_SIZE).1 = 0
      · simp [hzero, Outcome.ok, setStatus, updateLastCallTime, State.record]
      · have hpos : 0 < (env.read s.trace s.self._fd env.BUFFER_SIZE).1 := by omega
        simp only [hneg, hzero, if_false, hpos, true_and]
        obtain ⟨h1, h2, h3⟩ := andThen_updateLastCallTime env
          (parseRequest env
            (List.take env.BUFFER_SIZE
              (List.take (env.read s.trace s.self._fd env.BUFFER_SIZE).1.toNat
                  (env.read s.trace s.self._fd env.BUFFER_SIZE).2
                ++ List.replicate env.BUFFER_SIZE 0))
            (env.read s.trace s.self._fd env.BUFFER_SIZE).1
            (s.record (Call.read s.self._fd env.BUFFER_SIZE)))
        rw [h1, h2, h3, parseRequest_status]
        simp [State.record, hclose]
  · unfold selectResponseBuilder
    cases hallow : (env.getRequest s.self._requestParser).getLocation.isAllowMethod
        (env.getRequest s.self._requestParser).getMethod
    · simp [updateLastCallTime, hallow, Outcome.throw, hclose]
    · simp [updateLastCallTime, hallow, setStatus, Outcome.ok]
  · cases hbuilder : s.self._responseBuilder with
    | none => simp [buildResponse, hbuilder, Outcome.throw, hclose]
    | some builder =>
      rw [buildResponse_eq env eventType s builder hbuilder]
      cases hdone : (env.build builder eventType).1.isDone <;>
        simp [afterBuild, Outcome.ok, hdone, hclose]
  · rcases sendResponse_status env s with h | ⟨h1, h2 | h2⟩
    · left; rw [h, hclose]
    · left; exact h2.1
    · right; exact ⟨h2.1, h1, h2.2⟩
  · have h := (reset_tail env
      (resetStart env s (env.newErrorBuilder (env.getRequest s.self._requestParser) code))
      s.kqueue _ rfl rfl rfl rfl _ (resetResponseBuilder_eq env code s)).2.2.1
    rw [h]
    split_ifs
    · left; rfl
    · right; rfl
  · have h := (reset_tail env (resetStart env s env.newErrorBuilderDefault)
      s.kqueue _ rfl rfl rfl rfl _ (resetResponseBuilder_void_eq env s)).2.2.1
    rw [h]
    split_ifs
    · left; rfl
    · right; rfl

/-- The amended C10 on `closedState`: `clear()` keeps `CLOSE`, and so does a
`readSocket` whose read returns 0. -/
theorem close_kept_unless_status_assigned_witness :
    closedState.self._status = EStatus.CLOSE ∧
    (clear sampleEnv closedState).self._status = EStatus.CLOSE ∧
    (readSocket sampleEnv closedState).state.self._status = EStatus.CLOSE ∧
    ((resetResponseBuilder sampleEnv 500 closedState).state.self._status = EStatus.ON_SEND ∨
      (resetResponseBuilder sampleEnv 500 closedState).state.self._status
        = EStatus.ON_BUILD) :=
  have h := close_kept_unless_status_assigned sampleEnv closedState rfl [0] 0
    EventType.NONE 500
  ⟨rfl, h.1, by decide, h.2.2.2.2.2.2.2.1⟩

end Close

end Webserv
